import Mathlib

/-!
# Shallow embedding of the vefcel-sw client scripts

This file embeds the two client-side scripts of the repository — the
foreground page script (`src/unnamed/part_000`) and the background worker
(`src/service-worker.js`) — as executable Lean definitions, and proves
properties of them.

Conventions:
* JS strings appear as `String` where only equality matters, and as
  `List Nat` of character codes where character-level processing happens
  (the base64url codec) or where prefix/suffix reasoning is needed.
* `undefined`/`null` arguments are `Option` values; the JS truthiness test
  `s || d` on strings treats both `undefined` and `""` as falsy.
* Platform primitives (push manager, cache storage, network) are inputs:
  each handler takes the values the platform would hand it and returns the
  value it produces together with the list of observable effects it issues,
  in program order.
-/

set_option maxRecDepth 16384

namespace VercelSW

/-! ## JavaScript string helpers -/

/-- JS `a || b` where `a` is an optional string: `undefined`, `null` and `""`
are falsy, every other string is truthy. -/
def jsOr : Option String → String → String
  | some s, d => if s = "" then d else s
  | none, d => d

/-- The character codes of a string (JS strings seen as lists of code units;
all strings involved here are ASCII). -/
def strCodes (s : String) : List Nat := s.toList.map Char.toNat

/-! ## Key Codec — `urlBase64ToUint8Array` (part_000, lines 15–28)

The source computes `'='.repeat((4 - base64String.length % 4) % 4)`, appends
it, replaces `-` (code 45) by `+` (code 43) and `_` (code 95) by `/`
(code 47), and feeds the result to `window.atob`, collecting the char codes
of the decoded string into a `Uint8Array`. -/

/-- Number of `'='` characters appended: `(4 - base64String.length % 4) % 4`. -/
def padLen (n : Nat) : Nat := (4 - n % 4) % 4

/-- The two `replace` calls: `-` (45) becomes `+` (43), `_` (95) becomes `/` (47). -/
def translateChar (c : Nat) : Nat :=
  if c = 45 then 43 else if c = 95 then 47 else c

/-- The padded and translated string handed to `window.atob`
(append the padding, then the two replaces). `'='` has code 61. -/
def b64Preprocess (s : List Nat) : List Nat :=
  (s ++ List.replicate (padLen s.length) 61).map translateChar

/-- The value of a character in the standard base64 alphabet
(`A`–`Z`, `a`–`z`, `0`–`9`, `+`, `/`), or `none` if it is not in it. -/
def b64Val (c : Nat) : Option Nat :=
  if 65 ≤ c ∧ c ≤ 90 then some (c - 65)
  else if 97 ≤ c ∧ c ≤ 122 then some (c - 71)
  else if 48 ≤ c ∧ c ≤ 57 then some (c + 4)
  else if c = 43 then some 62
  else if c = 47 then some 63
  else none

/-- Map `b64Val` over a list, failing if any character is invalid. -/
def mapVals : List Nat → Option (List Nat)
  | [] => some []
  | c :: rest =>
    match b64Val c, mapVals rest with
    | some v, some vs => some (v :: vs)
    | _, _ => none

/-- Bit reassembly of forgiving-base64 decoding: each group of four 6-bit
values yields three bytes; a trailing group of two or three values yields
one or two bytes, with the spare low bits discarded. -/
def sextetsToBytes : List Nat → List Nat
  | a :: b :: c :: d :: rest =>
      (a * 4 + b / 16) :: ((b % 16) * 16 + c / 4) :: ((c % 4) * 64 + d) ::
        sextetsToBytes rest
  | [a, b] => [a * 4 + b / 16]
  | [a, b, c] => [a * 4 + b / 16, (b % 16) * 16 + c / 4]
  | _ => []

/-- Forgiving-base64 padding removal: when the length is a multiple of four,
up to two trailing `'='` (61) are removed. -/
def stripPad (s : List Nat) : List Nat :=
  if s.length % 4 = 0 then
    match s.reverse with
    | 61 :: 61 :: r => r.reverse
    | 61 :: r => r.reverse
    | _ => s
  else s

/-- `window.atob`, i.e. WHATWG forgiving-base64 decoding, on character
codes. Whitespace removal is omitted: no input considered in this file
contains whitespace. Returns `none` where `atob` throws. -/
def atob (s : List Nat) : Option (List Nat) :=
  let t := stripPad s
  if t.length % 4 = 1 then none
  else (mapVals t).map sextetsToBytes

/-- `urlBase64ToUint8Array` (part_000, lines 15–28): pad, translate, decode.
`none` models the platform decode error propagating. -/
def urlBase64ToUint8Array (s : List Nat) : Option (List Nat) :=
  atob (b64Preprocess s)

/-! ### A base64url encoder, for the round-trip property -/

/-- Encoding-side bit disassembly: three bytes yield four 6-bit values; one
or two trailing bytes yield two or three values whose spare bits are zero. -/
def bytesToSextets : List Nat → List Nat
  | x :: y :: z :: rest =>
      (x / 4) :: ((x % 4) * 16 + y / 16) :: ((y % 16) * 4 + z / 64) :: (z % 64) ::
        bytesToSextets rest
  | [x, y] => [x / 4, (x % 4) * 16 + y / 16, (y % 16) * 4]
  | [x] => [x / 4, (x % 4) * 16]
  | [] => []

/-- The character (code) of a 6-bit value in the base64url alphabet
(`-` for 62, `_` for 63). -/
def valToB64urlChar (v : Nat) : Nat :=
  if v < 26 then v + 65
  else if v < 52 then v + 71
  else if v < 62 then v - 4
  else if v = 62 then 45
  else 95

/-- Unpadded base64url encoding of a byte list. -/
def b64urlEncode (bs : List Nat) : List Nat :=
  (bytesToSextets bs).map valToB64urlChar

/-- Membership in the base64url alphabet (`A`–`Z`, `a`–`z`, `0`–`9`, `-`, `_`). -/
def isB64urlChar (c : Nat) : Bool :=
  (decide (65 ≤ c) && decide (c ≤ 90)) || (decide (97 ≤ c) && decide (c ≤ 122)) ||
    (decide (48 ≤ c) && decide (c ≤ 57)) || c == 45 || c == 95

/-- The value of a base64url character (meaningful only on the alphabet). -/
def urlVal (c : Nat) : Nat :=
  if 65 ≤ c ∧ c ≤ 90 then c - 65
  else if 97 ≤ c ∧ c ≤ 122 then c - 71
  else if 48 ≤ c ∧ c ≤ 57 then c + 4
  else if c = 45 then 62
  else 63

/-- Whether every spare bit of the final 6-bit group is zero — the
canonical-encoding condition of RFC 4648. -/
def spareZeroB : List Nat → Bool
  | _ :: _ :: _ :: _ :: rest => spareZeroB rest
  | [_, b] => b % 16 == 0
  | [_, _, c] => c % 4 == 0
  | _ => true

/-- A base64url body (no padding) is canonical when its character values
exist and their final group has zero spare bits. -/
def canonicalBody (body : List Nat) : Bool :=
  match mapVals (body.map translateChar) with
  | some vs => spareZeroB vs
  | none => false

/-! ## Navigation reports — the two `logNavigationToServer` functions

Each function is embedded as the POST body it sends to `/log-navigation`.
The foreground one (part_000, lines 110–139) reads the subscription cached
in localStorage; the worker one (service-worker.js, lines 21–48) asks the
push manager. -/

/-- A push subscription as these scripts use it: only the endpoint matters. -/
structure Subscription where
  endpoint : String
deriving DecidableEq

/-- The JSON body POSTed to `/log-navigation`. The `timestamp` field is sent
only by the worker path (`none` = field absent). -/
structure NavBody where
  url : String
  referrer : String
  userAgent : String
  subscriptionEndpoint : String
  timestamp : Option String
deriving DecidableEq

/-- Foreground `logNavigationToServer(url, referrer)` (part_000, lines
110–139): `stored` is the parsed `localStorage.getItem('pushSubscription')`
(`none` = no item), `docReferrer` is `document.referrer`, `userAgent` is
`navigator.userAgent`. -/
def fgNavBody (url : String) (referrer : Option String) (docReferrer : String)
    (userAgent : String) (stored : Option Subscription) : NavBody :=
  let subscriptionEndpoint :=
    match stored with
    | some s => s.endpoint
    | none => "not-subscribed"
  { url := url, referrer := jsOr referrer docReferrer, userAgent := userAgent,
    subscriptionEndpoint := subscriptionEndpoint, timestamp := none }

/-- Worker `logNavigationToServer(url, referrer)` (service-worker.js, lines
21–48): `subscriptionData` is `pushManager.getSubscription()`, `now` is
`new Date().toISOString()`. -/
def swNavBody (url : String) (referrer : Option String)
    (subscriptionData : Option Subscription) (now : String) : NavBody :=
  let subscriptionEndpoint :=
    match subscriptionData with
    | some s => s.endpoint
    | none => "not-available-in-sw"
  { url := url, referrer := jsOr referrer "unknown", userAgent := "service-worker",
    subscriptionEndpoint := subscriptionEndpoint, timestamp := some now }

/-! ## Worker activate step (service-worker.js, lines 73–94) -/

/-- `const VERSION = 'v1'`. -/
def VERSION : String := "v1"

/-- The prefix of the worker's cache bucket naming scheme. -/
def staticCachePrefix : List Char := "static-cache-".toList

/-- The current bucket name, `static-cache-${VERSION}`. -/
def currentCacheName : List Char := ("static-cache-" ++ VERSION).toList

/-- The buckets the activate handler deletes:
`cacheNames.filter(n => n.startsWith('static-cache-') && n !== 'static-cache-v1')`. -/
def activateDeleted (cacheNames : List (List Char)) : List (List Char) :=
  cacheNames.filter fun n => staticCachePrefix.isPrefixOf n && n != currentCacheName

/-- The version tag of a bucket name under the worker's naming scheme
`static-cache-⟨tag⟩`; `none` for names outside the scheme. -/
def versionTag (n : List Char) : Option (List Char) :=
  if staticCachePrefix.isPrefixOf n then some (n.drop staticCachePrefix.length)
  else none

/-! ## Worker fetch step (service-worker.js, lines 97–157) -/

/-- The relevant fields of a fetch-event request. `pathname` is kept as
characters because the handler tests substring containment on it. -/
structure Request where
  method : String
  hostname : String
  pathname : List Char
  mode : String
  url : String
  referrer : Option String
deriving DecidableEq

/-- An opaque network/cache response. -/
structure Response where
  id : Nat
deriving DecidableEq

/-- The hostname of `SERVER_URL = 'https://vercel-server-1v1v.onrender.com'`. -/
def serverHostname : String := "vercel-server-1v1v.onrender.com"

/-- Whether the fetch handler stores the network response — the negation of
its skip condition `method !== 'GET' || pathname.includes('/api/') ||
hostname === new URL(SERVER_URL).hostname`. -/
def shouldCache (req : Request) : Bool :=
  !(req.method != "GET" || decide ("/api/".toList <:+: req.pathname) ||
    req.hostname == serverHostname)

/-- Observable effects of the `respondWith` branch of the fetch handler. -/
inductive FetchEff
  | netFetch (req : Request)
  | cachePut (req : Request) (r : Response)
deriving DecidableEq

/-- The `event.respondWith(caches.match(...).then(...))` logic
(service-worker.js, lines 128–156): `cached` is the result of
`caches.match(event.request)`, `net` the response `fetch(event.request)`
would produce. Returns the response together with the effects issued. -/
def respondWithCacheFirst (req : Request) (cached : Option Response)
    (net : Response) : Response × List FetchEff :=
  match cached with
  | some r => (r, [])
  | none =>
    if shouldCache req then (net, [.netFetch req, .cachePut req net])
    else (net, [.netFetch req])

/-- A connected foreground context (client). -/
structure Client where
  id : Nat
deriving DecidableEq

/-- Observable effects of the navigation-tracking branch of the fetch
handler. -/
inductive TrackEff
  | postNavMessage (c : Client) (url : String) (referrer : String)
  | reportNav (url : String) (referrer : Option String)
deriving DecidableEq

/-- The tracking condition (service-worker.js, lines 107–109):
`url.hostname.endsWith('vercel.app') && method === 'GET' && mode === 'navigate'`. -/
def isTrackedNav (req : Request) : Bool :=
  "vercel.app".toList.isSuffixOf req.hostname.toList &&
    req.method == "GET" && req.mode == "navigate"

/-- The tracking branch of the fetch handler (service-worker.js, lines
107–126): posts a message to every client, then calls
`logNavigationToServer`. -/
def fetchTrackEffects (req : Request) (clients : List Client) : List TrackEff :=
  if isTrackedNav req then
    (clients.map fun c => .postNavMessage c req.url (jsOr req.referrer "unknown")) ++
      [.reportNav req.url req.referrer]
  else []

/-! ## Worker push step (service-worker.js, lines 160–189) -/

/-- The fields of a parsed push payload the handler reads; `none` = the JSON
object lacks the field. -/
structure PushPayload where
  title : Option String
  body : Option String
  icon : Option String
  badge : Option String
  tag : Option String
  url : Option String
  timestamp : Option String
deriving DecidableEq

/-- The options object passed to `showNotification`. -/
structure NotifOptions where
  body : String
  icon : String
  badge : String
  tag : String
  dataUrl : String
  dataTimestamp : String
deriving DecidableEq

/-- Observable effects of the push handler. -/
inductive PushEff
  | logParseError
  | showNotification (title : String) (opts : NotifOptions)
deriving DecidableEq

/-- `notificationData = {}` — every field absent. -/
def emptyPayload : PushPayload := ⟨none, none, none, none, none, none, none⟩

/-- The push handler (service-worker.js, lines 160–189). `eventData` is
`none` when `event.data` is absent, `some none` when `event.data.json()`
throws, `some (some p)` when it parses to `p`; `now` is
`new Date().toISOString()`. -/
def handlePush (eventData : Option (Option PushPayload)) (now : String) :
    List PushEff :=
  let nd : PushPayload :=
    match eventData with
    | some (some p) => p
    | _ => emptyPayload
  let logErr : List PushEff :=
    match eventData with
    | some none => [.logParseError]
    | _ => []
  logErr ++ [.showNotification (jsOr nd.title "Navigation Tracker")
    { body := jsOr nd.body "A new event was detected.",
      icon := jsOr nd.icon "/icon-192x192.png",
      badge := jsOr nd.badge "/badge.png",
      tag := jsOr nd.tag "default",
      dataUrl := jsOr nd.url "/",
      dataTimestamp := jsOr nd.timestamp now }]

/-- Number of notifications shown in an effect list. -/
def countShown : List PushEff → Nat
  | [] => 0
  | .showNotification _ _ :: r => countShown r + 1
  | _ :: r => countShown r

/-- Number of network calls in an effect list. -/
def countNetFetch : List FetchEff → Nat
  | [] => 0
  | .netFetch _ :: r => countNetFetch r + 1
  | _ :: r => countNetFetch r

/-! ## Subscription Manager — `subscribeUserToPush` (part_000, lines 31–85) -/

/-- The fallback key hardcoded at part_000, line 53. -/
def hardcodedVapidKey : String :=
  "BG1NfrHDgwEIxe4ACqecfs0wB0T2v1DaTE45MgzZU4bovjnGKww8eSv-R8r68W_LmV3WTIzccK01C2FCwM55CLQ"

/-- The platform facts `subscribeUserToPush` consults, gathered as inputs:
whether service workers and push are supported, the result of the
`GET /vapidPublicKey` round trip (`none` = fetch, JSON or field access
failed), the existing subscription, whether `pushManager.subscribe` would
succeed, and the subscription it would create. -/
structure PushEnv where
  supported : Bool
  keyFetch : Option String
  existing : Option Subscription
  subscribeOk : Bool
  fresh : Subscription
deriving DecidableEq

/-- Observable effects of `subscribeUserToPush`. -/
inductive PageEff
  | subscribeCall (applicationServerKey : List Nat)
  | postSubscribe (s : Subscription)
  | storeLocal (s : Subscription)
deriving DecidableEq

/-- The key string actually used: the server-provided one, or the hardcoded
fallback when the inner `try` fails (part_000, lines 45–55). -/
def effectiveVapidKey (env : PushEnv) : String :=
  match env.keyFetch with
  | some k => k
  | none => hardcodedVapidKey

/-- `subscribeUserToPush()` (part_000, lines 31–85): returns the value the
promise resolves to (`none` = `undefined`) and the effects issued, in
program order. An invalid key makes `urlBase64ToUint8Array` throw into the
outer `catch` before any subscribe call; with an existing subscription no
subscribe call occurs but the subscription is still re-sent and re-saved;
a failing `pushManager.subscribe` throws after the call was attempted. -/
def subscribeUserToPush (env : PushEnv) : Option Subscription × List PageEff :=
  if env.supported = false then (none, [])
  else
    match urlBase64ToUint8Array (strCodes (effectiveVapidKey env)) with
    | none => (none, [])
    | some applicationServerKey =>
      match env.existing with
      | some subscription =>
        (some subscription, [.postSubscribe subscription, .storeLocal subscription])
      | none =>
        if env.subscribeOk then
          (some env.fresh,
            [.subscribeCall applicationServerKey, .postSubscribe env.fresh,
              .storeLocal env.fresh])
        else (none, [.subscribeCall applicationServerKey])

/-! ## Theorems -/

/-- The current bucket name splits into the scheme prefix and the tag. -/
theorem currentCacheName_eq : currentCacheName = staticCachePrefix ++ "v1".toList := by
  decide

/-- Claim C1 (amended): a navigation report with no subscription sends an
endpoint marker, but the marker differs per path — the foreground page sends
`"not-subscribed"` while the worker sends `"not-available-in-sw"`. -/
theorem navReport_endpoint_markers (url : String) (referrer : Option String)
    (docReferrer userAgent now : String) :
    (fgNavBody url referrer docReferrer userAgent none).subscriptionEndpoint =
      "not-subscribed" ∧
    (swNavBody url referrer none now).subscriptionEndpoint = "not-available-in-sw" :=
  ⟨rfl, rfl⟩

/-- Claim C1 counterexample: the worker reporting path with no subscription
does not send `"not-subscribed"`. -/
theorem navReport_sw_marker_differs :
    (swNavBody "https://app.vercel.app/" none none
        "2026-01-01T00:00:00Z").subscriptionEndpoint = "not-available-in-sw" ∧
    (swNavBody "https://app.vercel.app/" none none
        "2026-01-01T00:00:00Z").subscriptionEndpoint ≠ "not-subscribed" := by
  exact ⟨rfl, by decide⟩

/-- Claim C10: a falsy `referrer` argument defaults to `document.referrer`
in the foreground report and to the literal `"unknown"` in the worker
report. -/
theorem navReport_referrer_defaults (url docReferrer userAgent now : String)
    (stored sub : Option Subscription) :
    (fgNavBody url none docReferrer userAgent stored).referrer = docReferrer ∧
    (fgNavBody url (some "") docReferrer userAgent stored).referrer = docReferrer ∧
    (swNavBody url none sub now).referrer = "unknown" ∧
    (swNavBody url (some "") sub now).referrer = "unknown" := by
  refine ⟨rfl, ?_, rfl, ?_⟩ <;> simp [fgNavBody, swNavBody, jsOr]

/-- Claim C2: after the activate step, a pre-existing bucket has been
deleted exactly when it carries a version tag different from the current
tag `v1`; in particular the current bucket `static-cache-v1` is retained.
Quantified over every list of pre-existing bucket names. -/
theorem activate_deletes_stale_keeps_current (cacheNames : List (List Char))
    (n : List Char) (hn : n ∈ cacheNames) :
    (n ∈ activateDeleted cacheNames ↔
      ∃ t, versionTag n = some t ∧ t ≠ "v1".toList) ∧
    currentCacheName ∉ activateDeleted cacheNames := by
  constructor
  · rw [activateDeleted, List.mem_filter]
    constructor
    · rintro ⟨-, hp⟩
      rw [Bool.and_eq_true, bne_iff_ne] at hp
      obtain ⟨hpre, hne⟩ := hp
      refine ⟨n.drop staticCachePrefix.length, by rw [versionTag, if_pos hpre], ?_⟩
      intro ht
      apply hne
      have hap := List.prefix_iff_eq_append.mp (List.isPrefixOf_iff_prefix.mp hpre)
      rw [currentCacheName_eq, ← ht]
      exact hap.symm
    · rintro ⟨t, hvt, htne⟩
      rw [versionTag] at hvt
      by_cases hpre : staticCachePrefix.isPrefixOf n
      · rw [if_pos hpre, Option.some.injEq] at hvt
        subst hvt
        refine ⟨hn, ?_⟩
        rw [Bool.and_eq_true, bne_iff_ne]
        refine ⟨hpre, fun hc => htne ?_⟩
        rw [hc, currentCacheName_eq, List.drop_left]
      · rw [if_neg hpre] at hvt
        exact absurd hvt (by simp)
  · intro hmem
    rw [activateDeleted, List.mem_filter] at hmem
    have hpred := hmem.2
    simp at hpred

/-- Claim C2 witness at a concrete bucket list. -/
theorem activate_deletes_stale_keeps_current_witness :
    (currentCacheName ∈ activateDeleted
        [currentCacheName, "static-cache-v0".toList, "other".toList] ↔
      ∃ t, versionTag currentCacheName = some t ∧ t ≠ "v1".toList) ∧
    currentCacheName ∉ activateDeleted
      [currentCacheName, "static-cache-v0".toList, "other".toList] :=
  activate_deletes_stale_keeps_current
    [currentCacheName, "static-cache-v0".toList, "other".toList]
    currentCacheName (by simp)

/-- Claim C3 (amended): a cached request is answered from the cache with no
network call; an uncached one triggers exactly one network call, and the
network response is stored if and only if the method is GET, the path does
not contain `/api/`, and the host is not the report server — with no
same-origin requirement. -/
theorem fetch_cacheFirst (req : Request) (r net : Response) :
    respondWithCacheFirst req (some r) net = (r, []) ∧
    countNetFetch (respondWithCacheFirst req (some r) net).2 = 0 ∧
    (respondWithCacheFirst req none net).1 = net ∧
    countNetFetch (respondWithCacheFirst req none net).2 = 1 ∧
    (FetchEff.cachePut req net ∈ (respondWithCacheFirst req none net).2 ↔
      (req.method = "GET" ∧ ¬ ("/api/".toList <:+: req.pathname) ∧
        req.hostname ≠ serverHostname)) := by
  have hiff : shouldCache req = true ↔
      (req.method = "GET" ∧ ¬ ("/api/".toList <:+: req.pathname) ∧
        req.hostname ≠ serverHostname) := by
    simp [shouldCache, and_assoc]
  have hmem : FetchEff.cachePut req net ∈ (respondWithCacheFirst req none net).2 ↔
      shouldCache req = true := by
    by_cases h : shouldCache req <;> simp [respondWithCacheFirst, h]
  refine ⟨rfl, rfl, ?_, ?_, hmem.trans hiff⟩ <;> by_cases h : shouldCache req <;>
    simp [respondWithCacheFirst, h, countNetFetch]

/-- Claim C3 counterexample: the code caches cross-origin GET responses, so
no choice of worker origin makes the claimed same-origin condition an
equivalence. -/
theorem fetch_cache_ignores_origin :
    ¬ (∀ (origin : String) (req : Request) (net : Response),
        FetchEff.cachePut req net ∈ (respondWithCacheFirst req none net).2 ↔
          (req.method = "GET" ∧ req.hostname = origin ∧
            ¬ ("/api/".toList <:+: req.pathname) ∧
            req.hostname ≠ serverHostname)) := by
  intro h
  have h1 := (h "a.example" ⟨"GET", "b.example", "/x".toList, "no-cors", "u", none⟩
    ⟨0⟩).mp (by decide)
  exact absurd h1.2.1 (by decide)

/-- Claim C4 (amended): when a subscription already exists (and the key
string in use decodes), `subscribeUserToPush` creates no new subscription
and resolves to the existing one — but it is not a no-op: it still re-sends
the subscription to the server and re-saves it locally. -/
theorem subscribe_existing_no_new (env : PushEnv) (s : Subscription)
    (hs : env.supported = true) (he : env.existing = some s)
    (hk : (urlBase64ToUint8Array (strCodes (effectiveVapidKey env))).isSome = true) :
    subscribeUserToPush env = (some s, [.postSubscribe s, .storeLocal s]) := by
  obtain ⟨ks, hks⟩ := Option.isSome_iff_exists.mp hk
  simp [subscribeUserToPush, hs, hks, he]

/-- Claim C4 witness at a concrete environment. -/
theorem subscribe_existing_no_new_witness :
    subscribeUserToPush ⟨true, some "QQ", some ⟨"ep"⟩, true, ⟨"fresh"⟩⟩ =
      (some ⟨"ep"⟩, [.postSubscribe ⟨"ep"⟩, .storeLocal ⟨"ep"⟩]) :=
  subscribe_existing_no_new _ _ rfl rfl (by decide)

/-- Claim C4 counterexample: with an existing subscription the call still
issues side effects (a `/subscribe` POST and a localStorage write). -/
theorem subscribe_existing_not_noop :
    (subscribeUserToPush ⟨true, some "QQ", some ⟨"ep"⟩, true, ⟨"fresh"⟩⟩).2 ≠ [] := by
  decide

/-- Claim C9: whenever a subscription already exists, `subscribeUserToPush`
never calls the platform subscribe primitive, so no second subscription is
ever created. -/
theorem no_second_subscription (env : PushEnv) (s : Subscription)
    (he : env.existing = some s) (k : List Nat) :
    PageEff.subscribeCall k ∉ (subscribeUserToPush env).2 := by
  by_cases hsup : env.supported = false
  · simp [subscribeUserToPush, hsup]
  · rcases hdec : urlBase64ToUint8Array (strCodes (effectiveVapidKey env)) with _ | ks
    · simp [subscribeUserToPush, hsup, hdec]
    · simp [subscribeUserToPush, hsup, hdec, he]

/-- Claim C9 witness at a concrete environment. -/
theorem no_second_subscription_witness :
    PageEff.subscribeCall [] ∉
      (subscribeUserToPush ⟨true, some "QQ", some ⟨"ep"⟩, true, ⟨"fresh"⟩⟩).2 :=
  no_second_subscription _ ⟨"ep"⟩ rfl []

/-- Claim C6: when the public-key fetch fails, the hardcoded constant key is
decoded and used, and (when the platform subscribe succeeds) the
subscription step still completes with that key. -/
theorem fallback_key_still_subscribes (env : PushEnv)
    (hs : env.supported = true) (hk : env.keyFetch = none)
    (he : env.existing = none) (hok : env.subscribeOk = true) :
    ∃ ks, urlBase64ToUint8Array (strCodes hardcodedVapidKey) = some ks ∧
      subscribeUserToPush env =
        (some env.fresh,
          [.subscribeCall ks, .postSubscribe env.fresh, .storeLocal env.fresh]) := by
  obtain ⟨ks, hks⟩ := Option.isSome_iff_exists.mp
    (show (urlBase64ToUint8Array (strCodes hardcodedVapidKey)).isSome = true by decide)
  refine ⟨ks, hks, ?_⟩
  have hkey : effectiveVapidKey env = hardcodedVapidKey := by
    rw [effectiveVapidKey, hk]
  simp [subscribeUserToPush, hs, hkey, hks, he, hok]

/-- Claim C6 witness at a concrete environment. -/
theorem fallback_key_still_subscribes_witness :
    ∃ ks, urlBase64ToUint8Array (strCodes hardcodedVapidKey) = some ks ∧
      subscribeUserToPush ⟨true, none, none, true, ⟨"fresh"⟩⟩ =
        (some ⟨"fresh"⟩,
          [.subscribeCall ks, .postSubscribe ⟨"fresh"⟩, .storeLocal ⟨"fresh"⟩]) :=
  fallback_key_still_subscribes ⟨true, none, none, true, ⟨"fresh"⟩⟩ rfl rfl rfl rfl

/-- Claim C7: every push event shows exactly one notification; a payload
that fails to parse is logged and the default notification (title
`Navigation Tracker`, default fields) is still shown; a parsed payload's
title, body, icon, tag and URL fields are used. -/
theorem push_always_shows (eventData : Option (Option PushPayload))
    (now t b i tg u : String) (bd ts : Option String) :
    countShown (handlePush eventData now) = 1 ∧
    handlePush (some none) now =
      [.logParseError, .showNotification "Navigation Tracker"
        ⟨"A new event was detected.", "/icon-192x192.png", "/badge.png",
          "default", "/", now⟩] ∧
    (t ≠ "" → b ≠ "" → i ≠ "" → tg ≠ "" → u ≠ "" →
      handlePush (some (some ⟨some t, some b, some i, bd, some tg, some u, ts⟩)) now =
        [.showNotification t ⟨b, i, jsOr bd "/badge.png", tg, u, jsOr ts now⟩]) := by
  refine ⟨?_, rfl, ?_⟩
  · rcases eventData with _ | ed
    · rfl
    · rcases ed with _ | p <;> rfl
  · intro ht hb hi htg hu
    simp [handlePush, jsOr, ht, hb, hi, htg, hu]

/-- Claim C7 witness at a concrete payload. -/
theorem push_always_shows_witness :
    handlePush (some (some ⟨some "T", some "B", some "I", none, some "G",
        some "U", none⟩)) "now" =
      [.showNotification "T" ⟨"B", "I", "/badge.png", "G", "U", "now"⟩] :=
  (push_always_shows (some (some ⟨some "T", some "B", some "I", none, some "G",
      some "U", none⟩)) "now" "T" "B" "I" "G" "U" none none).2.2
    (by decide) (by decide) (by decide) (by decide) (by decide)

/-- Claim C8: a GET request in navigate mode whose host ends in
`vercel.app` makes the worker message every connected client and call its
navigation reporter; any other request triggers neither. -/
theorem tracked_nav_notifies_and_reports (req : Request) (clients : List Client) :
    (("vercel.app".toList.isSuffixOf req.hostname.toList = true ∧
        req.method = "GET" ∧ req.mode = "navigate") →
      fetchTrackEffects req clients =
        (clients.map fun c => .postNavMessage c req.url (jsOr req.referrer "unknown")) ++
          [.reportNav req.url req.referrer]) ∧
    (¬ ("vercel.app".toList.isSuffixOf req.hostname.toList = true ∧
        req.method = "GET" ∧ req.mode = "navigate") →
      fetchTrackEffects req clients = []) := by
  have hiff : isTrackedNav req = true ↔
      ("vercel.app".toList.isSuffixOf req.hostname.toList = true ∧
        req.method = "GET" ∧ req.mode = "navigate") := by
    simp [isTrackedNav, and_assoc]
  constructor
  · intro h
    rw [fetchTrackEffects, if_pos (hiff.mpr h)]
  · intro h
    rw [fetchTrackEffects, if_neg (fun hc => h (hiff.mp hc))]

/-- Claim C8 witness at a concrete tracked request. -/
theorem tracked_nav_notifies_and_reports_witness :
    fetchTrackEffects ⟨"GET", "app.vercel.app", "/".toList, "navigate",
        "https://app.vercel.app/", none⟩ [⟨0⟩] =
      [.postNavMessage ⟨0⟩ "https://app.vercel.app/" "unknown",
        .reportNav "https://app.vercel.app/" none] :=
  (tracked_nav_notifies_and_reports ⟨"GET", "app.vercel.app", "/".toList,
      "navigate", "https://app.vercel.app/", none⟩ [⟨0⟩]).1 ⟨by decide, rfl, rfl⟩

/-! ### Base64url codec lemmas (Claim C5) -/

/-- Characters of the base64url alphabet are at most `z` (122). -/
theorem b64urlChar_le (c : Nat) (h : isB64urlChar c = true) : c ≤ 122 := by
  simp only [isB64urlChar, Bool.or_eq_true, Bool.and_eq_true, decide_eq_true_eq,
    beq_iff_eq] at h
  omega

/-- Per-character facts about a base64url character: its translation decodes
to `urlVal`, the value is a sextet, encoding the value restores the
character, and the translation is never `'='`. -/
theorem urlChar_spec (c : Nat) (h : isB64urlChar c = true) :
    b64Val (translateChar c) = some (urlVal c) ∧ urlVal c < 64 ∧
      valToB64urlChar (urlVal c) = c ∧ translateChar c ≠ 61 := by
  have hb := b64urlChar_le c h
  interval_cases c <;> revert h <;> decide

/-- Decoding the translated characters of a valid body yields its
`urlVal` values. -/
theorem mapVals_translate (body : List Nat)
    (h : ∀ c ∈ body, isB64urlChar c = true) :
    mapVals (body.map translateChar) = some (body.map urlVal) := by
  induction body with
  | nil => rfl
  | cons c rest ih =>
    have hc := (urlChar_spec c (h c (by simp))).1
    have hr := ih fun x hx => h x (by simp [hx])
    simp [mapVals, hc, hr]

/-- The values of a valid body are sextets. -/
theorem urlVals_lt (body : List Nat) (h : ∀ c ∈ body, isB64urlChar c = true) :
    ∀ v ∈ body.map urlVal, v < 64 := by
  intro v hv
  simp only [List.mem_map] at hv
  obtain ⟨c, hc, rfl⟩ := hv
  exact (urlChar_spec c (h c hc)).2.1

/-- Re-encoding the values of a valid body restores the body. -/
theorem map_valToChar_urlVal (body : List Nat)
    (h : ∀ c ∈ body, isB64urlChar c = true) :
    (body.map urlVal).map valToB64urlChar = body := by
  induction body with
  | nil => rfl
  | cons c rest ih =>
    have hc := (urlChar_spec c (h c (by simp))).2.2.1
    have hr := ih fun x hx => h x (by simp [hx])
    simp [hc, hr]

/-- Bit-level round trip: reassembling the bytes of a sextet list whose
spare bits are zero recovers the sextet list. -/
theorem bytesToSextets_sextetsToBytes (L : List Nat) (hall : ∀ v ∈ L, v < 64)
    (hlen : L.length % 4 ≠ 1) (hz : spareZeroB L = true) :
    bytesToSextets (sextetsToBytes L) = L := by
  induction L using sextetsToBytes.induct with
  | case1 a b c d rest ih =>
    have ha : a < 64 := hall a (by simp)
    have hb : b < 64 := hall b (by simp)
    have hc : c < 64 := hall c (by simp)
    have hd : d < 64 := hall d (by simp)
    have hrest : bytesToSextets (sextetsToBytes rest) = rest := by
      refine ih (fun v hv => hall v (by simp [hv])) ?_ ?_
      · simp only [List.length_cons] at hlen
        omega
      · simpa only [spareZeroB] using hz
    simp only [sextetsToBytes, bytesToSextets, hrest, List.cons.injEq]
    refine ⟨?_, ?_, ?_, ?_, trivial⟩ <;> omega
  | case2 a b =>
    have ha : a < 64 := hall a (by simp)
    have hb : b < 64 := hall b (by simp)
    have hzb : b % 16 = 0 := by simpa only [spareZeroB, beq_iff_eq] using hz
    simp only [sextetsToBytes, bytesToSextets, List.cons.injEq]
    refine ⟨?_, ?_, trivial⟩ <;> omega
  | case3 a b c =>
    have ha : a < 64 := hall a (by simp)
    have hb : b < 64 := hall b (by simp)
    have hc : c < 64 := hall c (by simp)
    have hzc : c % 4 = 0 := by simpa only [spareZeroB, beq_iff_eq] using hz
    simp only [sextetsToBytes, bytesToSextets, List.cons.injEq]
    refine ⟨?_, ?_, ?_, trivial⟩ <;> omega
  | case4 t h1 h2 h3 =>
    match t, h1, h2, h3 with
    | [], _, _, _ => rfl
    | [a], _, _, _ => exact absurd (show [a].length % 4 = 1 from rfl) hlen
    | [a, b], _, h2, _ => exact absurd rfl (h2 a b)
    | [a, b, c], _, _, h3 => exact absurd rfl (h3 a b c)
    | a :: b :: c :: d :: rest, h1, _, _ => exact absurd rfl (h1 a b c d rest)

/-- Removing the appended padding: `stripPad` peels exactly the padding the
codec appended, provided the body contains no `'='`. -/
theorem stripPad_append_pad (u : List Nat) (q : Nat) (hq : q ≤ 2)
    (hlen : (u.length + q) % 4 = 0) (hu : ∀ x ∈ u, x ≠ 61) :
    stripPad (u ++ List.replicate q 61) = u := by
  have hne : ∀ r : List Nat, u.reverse = 61 :: r → False := by
    intro r hr
    have : (61 : Nat) ∈ u.reverse := by rw [hr]; simp
    exact hu 61 (List.mem_reverse.mp this) rfl
  interval_cases q
  · rw [List.replicate, List.append_nil, stripPad,
      if_pos (by simpa using hlen)]
    split
    · rename_i r heq
      exact absurd heq (fun h => hne _ h)
    · rename_i r heq
      exact absurd heq (fun h => hne _ h)
    · rfl
  · have hrev : (u ++ List.replicate 1 61).reverse = 61 :: u.reverse := by simp
    rw [stripPad, if_pos (by simpa using hlen), hrev]
    split
    · rename_i r heq
      rw [List.cons.injEq] at heq
      exact absurd heq.2 (fun h => hne _ h)
    · rename_i r heq
      rw [List.cons.injEq] at heq
      rw [← heq.2, List.reverse_reverse]
    · rename_i hnm
      exact absurd rfl (hnm u.reverse)
  · have hrev : (u ++ List.replicate 2 61).reverse = 61 :: 61 :: u.reverse := by simp
    rw [stripPad, if_pos (by simpa using hlen), hrev]
    show u.reverse.reverse = u
    exact List.reverse_reverse u

/-- The preprocessing step on a valid input: padding completes the body and
translation passes through the appended `'='`. -/
theorem preprocess_shape (body : List Nat) (p : Nat)
    (hp : p = 0 ∨ p = padLen body.length) :
    b64Preprocess (body ++ List.replicate p 61) =
      body.map translateChar ++ List.replicate (padLen body.length) 61 := by
  have ht61 : translateChar 61 = 61 := rfl
  rcases hp with rfl | rfl
  · simp [b64Preprocess, List.map_append, List.map_replicate, ht61]
  · have h0 : padLen (body.length + padLen body.length) = 0 := by
      unfold padLen
      omega
    simp [b64Preprocess, List.length_append, List.length_replicate, h0,
      List.map_append, List.map_replicate, ht61]

/-- Decoding a valid base64url input (padded or unpadded) succeeds and
produces the bytes of its sextet values. -/
theorem urlB64_decode_valid (body : List Nat) (p : Nat)
    (hch : ∀ c ∈ body, isB64urlChar c = true) (hlen : body.length % 4 ≠ 1)
    (hp : p = 0 ∨ p = padLen body.length) :
    urlBase64ToUint8Array (body ++ List.replicate p 61) =
      some (sextetsToBytes (body.map urlVal)) := by
  rw [urlBase64ToUint8Array, preprocess_shape body p hp]
  have hstrip : stripPad (body.map translateChar ++
      List.replicate (padLen body.length) 61) = body.map translateChar := by
    refine stripPad_append_pad _ _ ?_ ?_ ?_
    · unfold padLen
      omega
    · rw [List.length_map]
      unfold padLen
      omega
    · intro x hx
      simp only [List.mem_map] at hx
      obtain ⟨c, hc, rfl⟩ := hx
      exact (urlChar_spec c (hch c hc)).2.2.2
  rw [atob]
  simp only [hstrip, List.length_map, if_neg hlen, mapVals_translate body hch]
  rfl

/-- Claim C5 (amended): the codec appends `'='` padding completing the
length to a multiple of four, translates `-` to `+` and `_` to `/`, and
decodes; and for every valid base64url input — padded or unpadded — whose
final spare bits are zero (RFC 4648 canonical form), decoding succeeds and
re-encoding the bytes with the base64url alphabet restores the original
body. -/
theorem urlBase64_roundtrip (body : List Nat) (p : Nat)
    (hch : ∀ c ∈ body, isB64urlChar c = true)
    (hlen : body.length % 4 ≠ 1)
    (hp : p = 0 ∨ p = padLen body.length)
    (hcan : canonicalBody body = true) :
    (b64Preprocess (body ++ List.replicate p 61)).length % 4 = 0 ∧
    ∃ bs, urlBase64ToUint8Array (body ++ List.replicate p 61) = some bs ∧
      b64urlEncode bs = body := by
  have hz : spareZeroB (body.map urlVal) = true := by
    rw [canonicalBody, mapVals_translate body hch] at hcan
    exact hcan
  refine ⟨?_, sextetsToBytes (body.map urlVal), urlB64_decode_valid body p hch hlen hp, ?_⟩
  · rw [preprocess_shape body p hp, List.length_append, List.length_map,
      List.length_replicate]
    unfold padLen
    omega
  · rw [b64urlEncode, bytesToSextets_sextetsToBytes _ (urlVals_lt body hch)
      (by rw [List.length_map]; exact hlen) hz, map_valToChar_urlVal body hch]

/-- Claim C5 witness: the canonical input `"QQ"` decodes to `[65]` and
re-encodes to itself. -/
theorem urlBase64_roundtrip_witness :
    (b64Preprocess (strCodes "QQ" ++ List.replicate 0 61)).length % 4 = 0 ∧
    ∃ bs, urlBase64ToUint8Array (strCodes "QQ" ++ List.replicate 0 61) = some bs ∧
      b64urlEncode bs = strCodes "QQ" :=
  urlBase64_roundtrip (strCodes "QQ") 0 (by decide) (by decide) (Or.inl rfl)
    (by decide)

/-- Claim C5 counterexample: `"QR"` is a valid unpadded base64url string
(`window.atob` accepts it and discards its nonzero spare bits), yet decoding
and re-encoding yields `"QQ"`, not `"QR"`. -/
theorem urlBase64_roundtrip_fails_noncanonical :
    (∀ c ∈ strCodes "QR", isB64urlChar c = true) ∧
    (strCodes "QR").length % 4 ≠ 1 ∧
    urlBase64ToUint8Array (strCodes "QR") = some [65] ∧
    b64urlEncode [65] = strCodes "QQ" ∧
    strCodes "QQ" ≠ strCodes "QR" := by
  decide

end VercelSW
